import Mathlib

/-
Verification of `js/plugins/google-cloud/src/otel-compat.ts`, a compatibility
shim over the OpenTelemetry 2.0 resource API.  The shim wraps an opaque
"native resource" produced by three external factory functions
(`resourceFromAttributes`, `defaultResource`, `emptyResource` from
`@opentelemetry/resources`) and exposes `attributes`, `merge` and
`getNativeResource` on the wrapper, plus four module-level factory
functions.

The embedding models JavaScript runtime values (`JSVal`), truthiness,
property access and object spread, translates every function of the shim
over an abstract record of external factories, and proves the spec's
claims about attribute contents, the wrapper/native invariant, the
detector normalization precedence, allocation freshness of `merge`, error
pass-through, and determinism.
-/

set_option autoImplicit false

namespace OtelCompat

/-- A JavaScript runtime value, as far as the shim inspects one: the
falsy primitives, booleans, numbers, strings, and objects.  An object is
its list of own enumerable properties in insertion order; a key written
twice means the later write wins, as in a JS object literal. -/
inductive JSVal where
  | vundefined : JSVal
  | vnull : JSVal
  | vbool : Bool → JSVal
  | vnum : Int → JSVal
  | vstr : String → JSVal
  | vobj : List (String × JSVal) → JSVal

/-- JS truthiness: `undefined`, `null`, `false`, `0` and `""` are falsy;
every object is truthy. -/
def truthy : JSVal → Bool
  | .vundefined => false
  | .vnull => false
  | .vbool b => b
  | .vnum n => n != 0
  | .vstr s => s != ""
  | .vobj _ => true

/-- `typeof v === 'object'`: true for objects and — a JS quirk — for
`null`. -/
def typeofObject : JSVal → Bool
  | .vnull => true
  | .vobj _ => true
  | _ => false

/-- Key lookup among an object's own properties.  Later entries win,
matching JS object-literal and spread assignment order. -/
def objGet : List (String × JSVal) → String → Option JSVal
  | [], _ => none
  | (k, v) :: rest, key =>
    match objGet rest key with
    | some w => some w
    | none => if k = key then some v else none

/-- Property access `v.key` on any value the shim can reach one on
(truthy values and objects): missing properties read as `undefined`;
primitives have no own `attributes` property. -/
def getProp (v : JSVal) (key : String) : JSVal :=
  match v with
  | .vobj fields => (objGet fields key).getD .vundefined
  | _ => .vundefined

/-- The own enumerable properties contributed by `...v` in an object
spread: an object's own properties, the index/character pairs of a
string, and nothing for every other primitive (spreading `null`,
`undefined`, a boolean or a number contributes no properties). -/
def spreadFields : JSVal → List (String × JSVal)
  | .vobj fields => fields
  | .vstr s => (s.toList.enum.map fun p => (toString p.1, JSVal.vstr (String.singleton p.2)))
  | _ => []

/-- The object spread `({...a, ...b})`. -/
def spread (a b : JSVal) : JSVal :=
  .vobj (spreadFields a ++ spreadFields b)

/-- The opaque native resource handle of the underlying telemetry
library: all the shim ever reads from it is its `attributes` property. -/
structure NativeResource where
  attributes : JSVal

/-- The three external construction functions consumed by the shim
(section 6 of the spec): attributes→resource, ()→default resource,
()→empty resource.  Kept abstract; theorems assume only what the spec's
external-interface section guarantees about them. -/
structure OtelFactories where
  resourceFromAttributes : JSVal → NativeResource
  defaultResource : Unit → NativeResource
  emptyResource : Unit → NativeResource

/-- Modelled from the spec: the concrete `@opentelemetry/resources`
factory functions are outside this repository; the spec describes
`resourceFromAttributes` as building a resource whose attributes equal
the input mapping, `emptyResource` as yielding an empty attributes
mapping, and `defaultResource` as yielding implementation-defined
baseline attributes (kept as a parameter here). -/
def otelFactories (defaultAttrs : JSVal) : OtelFactories where
  resourceFromAttributes := fun a => ⟨a⟩
  defaultResource := fun _ => ⟨defaultAttrs⟩
  emptyResource := fun _ => ⟨JSVal.vobj []⟩

/-- `class ResourceWrapper implements CompatResource`: holds the native
resource in its private `_resource` field. -/
structure ResourceWrapper where
  _resource : NativeResource

/-- `get attributes()` — reads through to `this._resource.attributes`. -/
def ResourceWrapper.attributes (w : ResourceWrapper) : JSVal :=
  w._resource.attributes

/-- `getNativeResource()` — returns the wrapped handle. -/
def ResourceWrapper.getNativeResource (w : ResourceWrapper) : NativeResource :=
  w._resource

/-- `merge(other)` — spreads `this._resource.attributes` then
`other.getNativeResource().attributes` into one object, builds a native
resource from it and wraps the result. -/
def ResourceWrapper.merge (F : OtelFactories) (w other : ResourceWrapper) : ResourceWrapper :=
  let mergedAttributes := spread w._resource.attributes (other.getNativeResource).attributes
  ⟨F.resourceFromAttributes mergedAttributes⟩

/-- `createResource(attributes)` with the argument given explicitly. -/
def createResource (F : OtelFactories) (attributes : JSVal) : ResourceWrapper :=
  ⟨F.resourceFromAttributes attributes⟩

/-- `createResource()` — the TS default parameter `attributes = {}`. -/
def createResourceDefaulted (F : OtelFactories) : ResourceWrapper :=
  createResource F (JSVal.vobj [])

/-- `getDefaultResource()`. -/
def getDefaultResource (F : OtelFactories) : ResourceWrapper :=
  ⟨F.defaultResource ()⟩

/-- `getEmptyResource()`. -/
def getEmptyResource (F : OtelFactories) : ResourceWrapper :=
  ⟨F.emptyResource ()⟩

/-- `createResourceFromDetector(detectorResult)`: the two-branch `if`
over the truthiness of `detectorResult && detectorResult.attributes` and
then `detectorResult && typeof detectorResult === 'object'`, with the
initial `attributes = {}` as fallback. -/
def createResourceFromDetector (F : OtelFactories) (detectorResult : JSVal) : ResourceWrapper :=
  let attributes : JSVal :=
    if truthy detectorResult && truthy (getProp detectorResult "attributes") then
      getProp detectorResult "attributes"
    else if truthy detectorResult && typeofObject detectorResult then
      detectorResult
    else
      JSVal.vobj []
  ⟨F.resourceFromAttributes attributes⟩

/-- Whether a value exposes a property among its own properties. -/
def hasProp (v : JSVal) (key : String) : Bool :=
  match v with
  | .vobj fields => (objGet fields key).isSome
  | _ => false

/-- A mapping-like object: an object value (not `null`, not a
primitive). -/
def isMappingLike : JSVal → Bool
  | .vobj _ => true
  | _ => false

/-- The detector normalization precedence in the spec's words, as
stated: (1) if the input exposes an `attributes` field, use it; (2) else
if the input is itself a mapping-like object, use it directly; (3) else
use the empty mapping. -/
def specDetectorAttributes (d : JSVal) : JSVal :=
  if hasProp d "attributes" then getProp d "attributes"
  else if isMappingLike d then d
  else JSVal.vobj []

/-- The detector normalization precedence amended to what the code's
truthiness tests decide: (1) if the input has a truthy `attributes`
field, use it; (2) else if the input is itself a mapping-like object,
use it directly; (3) else use the empty mapping. -/
def specDetectorAttributesAmended (d : JSVal) : JSVal :=
  if truthy (getProp d "attributes") then getProp d "attributes"
  else if isMappingLike d then d
  else JSVal.vobj []

/-- Key lookup in an attributes value: an object's own property, nothing
on a non-object. -/
def attrLookup (v : JSVal) (k : String) : Option JSVal :=
  match v with
  | .vobj fields => objGet fields k
  | _ => none

/-- Ordinary mapping-overlay lookup, in the spec's words: the second
mapping's value wins on every key collision, otherwise fall back to the
first mapping. -/
def overlayGet (A1 A2 : List (String × JSVal)) (k : String) : Option JSVal :=
  match objGet A2 k with
  | some v => some v
  | none => objGet A1 k

theorem objGet_append (A1 A2 : List (String × JSVal)) (k : String) :
    objGet (A1 ++ A2) k = overlayGet A1 A2 k := by
  induction A1 with
  | nil =>
    simp only [List.nil_append, overlayGet, objGet]
    cases objGet A2 k <;> rfl
  | cons hd tl ih =>
    obtain ⟨k1, v1⟩ := hd
    have step : objGet (((k1, v1) :: tl) ++ A2) k
        = match objGet (tl ++ A2) k with
          | some w => some w
          | none => if k1 = k then some v1 else none := rfl
    rw [step, ih]
    unfold overlayGet
    cases objGet A2 k with
    | some v => rfl
    | none => simp [objGet]

/-- C1: merging resources with attribute mappings `A1` and `A2` yields a
resource whose attributes are `A1` overlaid with `A2`, where `A2`'s
value wins on every key collision (last-argument-wins mapping-overlay
semantics). -/
theorem merge_attributes_overlay (F : OtelFactories)
    (hF : ∀ a, (F.resourceFromAttributes a).attributes = a)
    (w1 w2 : ResourceWrapper) (A1 A2 : List (String × JSVal))
    (h1 : w1.attributes = JSVal.vobj A1) (h2 : w2.attributes = JSVal.vobj A2) :
    (ResourceWrapper.merge F w1 w2).attributes = JSVal.vobj (A1 ++ A2) ∧
    ∀ k, attrLookup (ResourceWrapper.merge F w1 w2).attributes k = overlayGet A1 A2 k := by
  simp only [ResourceWrapper.attributes] at h1 h2
  have hmerged : (ResourceWrapper.merge F w1 w2).attributes = JSVal.vobj (A1 ++ A2) := by
    simp [ResourceWrapper.merge, ResourceWrapper.attributes, ResourceWrapper.getNativeResource,
      spread, spreadFields, hF, h1, h2]
  refine ⟨hmerged, fun k => ?_⟩
  rw [hmerged]
  simpa [attrLookup] using objGet_append A1 A2 k

/-- Witness for C1 at concrete resources: the colliding key takes the
second resource's value, a key only in the first keeps its value. -/
theorem merge_attributes_overlay_witness :
    attrLookup (ResourceWrapper.merge (otelFactories (JSVal.vobj []))
        ⟨⟨JSVal.vobj [("a", JSVal.vnum 1), ("k", JSVal.vnum 1)]⟩⟩
        ⟨⟨JSVal.vobj [("k", JSVal.vnum 2), ("b", JSVal.vnum 3)]⟩⟩).attributes "k"
      = some (JSVal.vnum 2) := by
  have h := merge_attributes_overlay (otelFactories (JSVal.vobj [])) (fun _ => rfl)
    ⟨⟨JSVal.vobj [("a", JSVal.vnum 1), ("k", JSVal.vnum 1)]⟩⟩
    ⟨⟨JSVal.vobj [("k", JSVal.vnum 2), ("b", JSVal.vnum 3)]⟩⟩
    [("a", JSVal.vnum 1), ("k", JSVal.vnum 1)] [("k", JSVal.vnum 2), ("b", JSVal.vnum 3)]
    rfl rfl
  rw [h.2 "k"]
  rfl

/-- C2: for every wrapper, and in particular for the output of each of
the four factory functions and of `merge`, the attributes exposed by the
wrapper equal the attributes of the native handle returned by
`getNativeResource()`. -/
theorem wrapper_native_attributes_invariant (F : OtelFactories) :
    (∀ w : ResourceWrapper, (ResourceWrapper.getNativeResource w).attributes = w.attributes) ∧
    (∀ a, ((createResource F a).getNativeResource).attributes = (createResource F a).attributes) ∧
    ((getDefaultResource F).getNativeResource).attributes = (getDefaultResource F).attributes ∧
    ((getEmptyResource F).getNativeResource).attributes = (getEmptyResource F).attributes ∧
    (∀ d, ((createResourceFromDetector F d).getNativeResource).attributes
      = (createResourceFromDetector F d).attributes) ∧
    (∀ w1 w2, ((ResourceWrapper.merge F w1 w2).getNativeResource).attributes
      = (ResourceWrapper.merge F w1 w2).attributes) :=
  ⟨fun _ => rfl, fun _ => rfl, rfl, rfl, fun _ => rfl, fun _ _ => rfl⟩

/-- C4: `createResource(A)` yields a resource whose attributes equal `A`,
and `createResource()` (defaulted argument) yields empty attributes. -/
theorem createResource_attributes (F : OtelFactories)
    (hF : ∀ a, (F.resourceFromAttributes a).attributes = a) :
    (∀ a, (createResource F a).attributes = a) ∧
    (createResourceDefaulted F).attributes = JSVal.vobj [] := by
  refine ⟨fun a => ?_, ?_⟩ <;>
    simp [createResource, createResourceDefaulted, ResourceWrapper.attributes, hF]

/-- Witness for C4 at a concrete attributes mapping. -/
theorem createResource_attributes_witness :
    (createResource (otelFactories (JSVal.vobj [])) (JSVal.vobj [("x", JSVal.vstr "y")])).attributes
        = JSVal.vobj [("x", JSVal.vstr "y")] ∧
    (createResourceDefaulted (otelFactories (JSVal.vobj []))).attributes = JSVal.vobj [] := by
  have h := createResource_attributes (otelFactories (JSVal.vobj [])) (fun _ => rfl)
  exact ⟨h.1 (JSVal.vobj [("x", JSVal.vstr "y")]), h.2⟩

/-- C5: `getEmptyResource()` yields a resource whose attributes equal
the empty mapping. -/
theorem getEmptyResource_attributes (F : OtelFactories)
    (hE : (F.emptyResource ()).attributes = JSVal.vobj []) :
    (getEmptyResource F).attributes = JSVal.vobj [] := hE

/-- Witness for C5 at the modelled OTel 2.0 factories. -/
theorem getEmptyResource_attributes_witness :
    (getEmptyResource (otelFactories (JSVal.vobj [("svc", JSVal.vstr "s")]))).attributes
      = JSVal.vobj [] :=
  getEmptyResource_attributes (otelFactories (JSVal.vobj [("svc", JSVal.vstr "s")])) rfl

/-- C9: at the attributes level, the empty resource is a two-sided
identity for `merge` on every resource whose attributes form a
mapping. -/
theorem merge_empty_identity (F : OtelFactories)
    (hF : ∀ a, (F.resourceFromAttributes a).attributes = a)
    (hE : (F.emptyResource ()).attributes = JSVal.vobj [])
    (R : ResourceWrapper) (A : List (String × JSVal))
    (hA : R.attributes = JSVal.vobj A) :
    (ResourceWrapper.merge F R (getEmptyResource F)).attributes = R.attributes ∧
    (ResourceWrapper.merge F (getEmptyResource F) R).attributes = R.attributes := by
  simp only [ResourceWrapper.attributes] at hA
  constructor <;>
    simp [ResourceWrapper.merge, ResourceWrapper.attributes, ResourceWrapper.getNativeResource,
      getEmptyResource, spread, spreadFields, hF, hE, hA]

/-- Witness for C9 at a concrete resource. -/
theorem merge_empty_identity_witness :
    (ResourceWrapper.merge (otelFactories (JSVal.vobj []))
        ⟨⟨JSVal.vobj [("a", JSVal.vnum 7)]⟩⟩
        (getEmptyResource (otelFactories (JSVal.vobj [])))).attributes
      = JSVal.vobj [("a", JSVal.vnum 7)] ∧
    (ResourceWrapper.merge (otelFactories (JSVal.vobj []))
        (getEmptyResource (otelFactories (JSVal.vobj [])))
        ⟨⟨JSVal.vobj [("a", JSVal.vnum 7)]⟩⟩).attributes
      = JSVal.vobj [("a", JSVal.vnum 7)] :=
  merge_empty_identity (otelFactories (JSVal.vobj [])) (fun _ => rfl) rfl
    ⟨⟨JSVal.vobj [("a", JSVal.vnum 7)]⟩⟩ [("a", JSVal.vnum 7)] rfl

theorem detector_attributes_eq (d : JSVal) :
    (if truthy d && truthy (getProp d "attributes") then getProp d "attributes"
     else if truthy d && typeofObject d then d
     else JSVal.vobj [])
      = specDetectorAttributesAmended d := by
  cases d <;>
    simp [specDetectorAttributesAmended, truthy, getProp, typeofObject, isMappingLike]

/-- C3 counterexample: at an object whose `attributes` field holds the
falsy value `false`, the code does not use that field (as the stated
precedence demands) but the object itself. -/
theorem detector_precedence_counterexample :
    (createResourceFromDetector (otelFactories (JSVal.vobj []))
        (JSVal.vobj [("attributes", JSVal.vbool false), ("b", JSVal.vnum 2)])).attributes
      ≠ specDetectorAttributes
          (JSVal.vobj [("attributes", JSVal.vbool false), ("b", JSVal.vnum 2)]) := by
  intro h
  simp [createResourceFromDetector, specDetectorAttributes, ResourceWrapper.attributes,
    otelFactories, hasProp, getProp, objGet, truthy, typeofObject] at h

/-- C3 amended: `createResourceFromDetector` builds the attributes by:
(1) if the input has a truthy `attributes` field, that field is used;
(2) else if the input is itself a mapping-like object, it is used
directly; (3) else the empty mapping is used.  In particular `null`
yields a resource with empty attributes. -/
theorem createResourceFromDetector_attributes (F : OtelFactories)
    (hF : ∀ a, (F.resourceFromAttributes a).attributes = a) :
    (∀ d, (createResourceFromDetector F d).attributes = specDetectorAttributesAmended d) ∧
    (createResourceFromDetector F JSVal.vnull).attributes = JSVal.vobj [] := by
  have hgen : ∀ d, (createResourceFromDetector F d).attributes
      = specDetectorAttributesAmended d := by
    intro d
    have harg := detector_attributes_eq d
    simp only [createResourceFromDetector, ResourceWrapper.attributes, harg, hF]
  exact ⟨hgen, by rw [hgen JSVal.vnull]; rfl⟩

/-- Witness for amended C3: an `attributes`-bearing object, a plain
mapping-like object, and `null`. -/
theorem createResourceFromDetector_attributes_witness :
    (createResourceFromDetector (otelFactories (JSVal.vobj []))
        (JSVal.vobj [("attributes", JSVal.vobj [("a", JSVal.vnum 1)])])).attributes
      = JSVal.vobj [("a", JSVal.vnum 1)] ∧
    (createResourceFromDetector (otelFactories (JSVal.vobj []))
        (JSVal.vobj [("b", JSVal.vnum 2)])).attributes
      = JSVal.vobj [("b", JSVal.vnum 2)] ∧
    (createResourceFromDetector (otelFactories (JSVal.vobj []))
        JSVal.vnull).attributes = JSVal.vobj [] := by
  have h := createResourceFromDetector_attributes (otelFactories (JSVal.vobj []))
    (fun _ => rfl)
  refine ⟨?_, ?_, h.2⟩
  · rw [h.1 (JSVal.vobj [("attributes", JSVal.vobj [("a", JSVal.vnum 1)])])]
    rfl
  · rw [h.1 (JSVal.vobj [("b", JSVal.vnum 2)])]
    rfl

/-- C8: a truthy object whose `attributes` field holds a falsy value is
itself used as the attributes mapping — the `attributes` key included —
rather than the falsy field or the empty mapping. -/
theorem detector_falsy_attributes_field (F : OtelFactories)
    (hF : ∀ a, (F.resourceFromAttributes a).attributes = a)
    (fields : List (String × JSVal)) (v : JSVal)
    (hfield : objGet fields "attributes" = some v)
    (hfalsy : truthy v = false) :
    (createResourceFromDetector F (JSVal.vobj fields)).attributes = JSVal.vobj fields := by
  have htr : truthy (JSVal.vobj fields) = true := rfl
  simp [createResourceFromDetector, ResourceWrapper.attributes, hF, getProp,
    typeofObject, hfield, hfalsy, htr]

/-- Witness for C8 at `{attributes: null, b: 2}`. -/
theorem detector_falsy_attributes_field_witness :
    objGet [("attributes", JSVal.vnull), ("b", JSVal.vnum 2)] "attributes"
        = some JSVal.vnull ∧
    truthy JSVal.vnull = false ∧
    (createResourceFromDetector (otelFactories (JSVal.vobj []))
        (JSVal.vobj [("attributes", JSVal.vnull), ("b", JSVal.vnum 2)])).attributes
      = JSVal.vobj [("attributes", JSVal.vnull), ("b", JSVal.vnum 2)] :=
  ⟨rfl, rfl,
    detector_falsy_attributes_field (otelFactories (JSVal.vobj [])) (fun _ => rfl)
      [("attributes", JSVal.vnull), ("b", JSVal.vnum 2)] JSVal.vnull rfl rfl⟩

/-- A heap of allocated native resources; a wrapper object is identified
with the index of its cell.  Allocation (`new ResourceWrapper(...)`)
appends a cell; mutating an existing object would rewrite a cell in
place — the shim never does. -/
abbrev Heap := List NativeResource

def emptyNative : NativeResource := ⟨JSVal.vobj []⟩

/-- `merge` with JS object allocation made explicit: read the operands'
attributes from their cells, build the spread object, allocate the
merged native resource at a fresh address and return that address with
the extended heap.  Existing cells are never written. -/
def mergeHeap (F : OtelFactories) (h : Heap) (i j : Nat) : Heap × Nat :=
  let ai := (h[i]?.getD emptyNative).attributes
  let aj := (h[j]?.getD emptyNative).attributes
  let merged := F.resourceFromAttributes (spread ai aj)
  (h ++ [merged], h.length)

/-- C6: heap-level `merge` mutates neither operand — every previously
allocated object reads back unchanged, in particular both operands' —
and its result is a fresh instance distinct from both operands, holding
exactly the native resource that wrapper-level `merge` builds. -/
theorem merge_no_mutation_fresh (F : OtelFactories) (h : Heap) (i j : Nat)
    (hi : i < h.length) (hj : j < h.length) :
    (mergeHeap F h i j).2 ≠ i ∧ (mergeHeap F h i j).2 ≠ j ∧
    (∀ k, k < h.length → (mergeHeap F h i j).1[k]? = h[k]?) ∧
    (mergeHeap F h i j).1[i]? = h[i]? ∧ (mergeHeap F h i j).1[j]? = h[j]? ∧
    (mergeHeap F h i j).1[(mergeHeap F h i j).2]?
      = some ((ResourceWrapper.merge F ⟨h[i]?.getD emptyNative⟩
          ⟨h[j]?.getD emptyNative⟩)._resource) := by
  have hframe : ∀ k, k < h.length → (mergeHeap F h i j).1[k]? = h[k]? := by
    intro k hk
    simp [mergeHeap, List.getElem?_append, hk]
  refine ⟨Nat.ne_of_gt hi, Nat.ne_of_gt hj, hframe, hframe i hi, hframe j hj, ?_⟩
  simp [mergeHeap, ResourceWrapper.merge, ResourceWrapper.getNativeResource,
    List.getElem?_concat_length]

/-- Witness for C6 on a two-cell heap. -/
theorem merge_no_mutation_fresh_witness :
    (mergeHeap (otelFactories (JSVal.vobj []))
        [⟨JSVal.vobj [("a", JSVal.vnum 1)]⟩, ⟨JSVal.vobj [("b", JSVal.vnum 2)]⟩] 0 1).2 ≠ 0 ∧
    (mergeHeap (otelFactories (JSVal.vobj []))
        [⟨JSVal.vobj [("a", JSVal.vnum 1)]⟩, ⟨JSVal.vobj [("b", JSVal.vnum 2)]⟩] 0 1).1[0]?
      = ([⟨JSVal.vobj [("a", JSVal.vnum 1)]⟩, ⟨JSVal.vobj [("b", JSVal.vnum 2)]⟩] : Heap)[0]? := by
  have h := merge_no_mutation_fresh (otelFactories (JSVal.vobj []))
    [⟨JSVal.vobj [("a", JSVal.vnum 1)]⟩, ⟨JSVal.vobj [("b", JSVal.vnum 2)]⟩] 0 1
    (by decide) (by decide)
  exact ⟨h.1, h.2.2.2.1⟩

/-- The external factories with the possibility of failure made
explicit: a delegated JS call either returns a native resource or
throws. -/
structure OtelFactoriesE (ε : Type) where
  resourceFromAttributes : JSVal → Except ε NativeResource
  defaultResource : Unit → Except ε NativeResource
  emptyResource : Unit → Except ε NativeResource

/-- `createResource` over fallible factories: no try/catch anywhere in
the shim, so the factory call's outcome is simply propagated. -/
def createResourceE {ε : Type} (F : OtelFactoriesE ε) (attributes : JSVal) :
    Except ε ResourceWrapper := do
  let resource ← F.resourceFromAttributes attributes
  return ⟨resource⟩

/-- `getDefaultResource` over fallible factories. -/
def getDefaultResourceE {ε : Type} (F : OtelFactoriesE ε) : Except ε ResourceWrapper := do
  let resource ← F.defaultResource ()
  return ⟨resource⟩

/-- `getEmptyResource` over fallible factories. -/
def getEmptyResourceE {ε : Type} (F : OtelFactoriesE ε) : Except ε ResourceWrapper := do
  let resource ← F.emptyResource ()
  return ⟨resource⟩

/-- `createResourceFromDetector` over fallible factories: the attributes
normalization itself cannot throw; only the delegated construction
can. -/
def createResourceFromDetectorE {ε : Type} (F : OtelFactoriesE ε) (detectorResult : JSVal) :
    Except ε ResourceWrapper := do
  let attributes : JSVal :=
    if truthy detectorResult && truthy (getProp detectorResult "attributes") then
      getProp detectorResult "attributes"
    else if truthy detectorResult && typeofObject detectorResult then
      detectorResult
    else
      JSVal.vobj []
  let resource ← F.resourceFromAttributes attributes
  return ⟨resource⟩

/-- `merge` over fallible factories: the wrapper reads cannot throw;
only the delegated construction can. -/
def mergeE {ε : Type} (F : OtelFactoriesE ε) (w other : ResourceWrapper) :
    Except ε ResourceWrapper := do
  let mergedAttributes := spread w._resource.attributes (other.getNativeResource).attributes
  let merged ← F.resourceFromAttributes mergedAttributes
  return ⟨merged⟩

/-- C7: every adapter operation is exactly the image under
`ResourceWrapper.mk` of its one delegated factory call: an `Except.error
e` from the factory is returned unchanged (no catch, no translation, no
retry), and a successful factory call is only wrapped, so no error
originates in the adapter. -/
theorem adapter_error_passthrough {ε : Type} (F : OtelFactoriesE ε) :
    (∀ a, createResourceE F a
      = Except.map ResourceWrapper.mk (F.resourceFromAttributes a)) ∧
    getDefaultResourceE F = Except.map ResourceWrapper.mk (F.defaultResource ()) ∧
    getEmptyResourceE F = Except.map ResourceWrapper.mk (F.emptyResource ()) ∧
    (∀ d, createResourceFromDetectorE F d
      = Except.map ResourceWrapper.mk
          (F.resourceFromAttributes (specDetectorAttributesAmended d))) ∧
    (∀ w1 w2, mergeE F w1 w2
      = Except.map ResourceWrapper.mk
          (F.resourceFromAttributes
            (spread w1.attributes (w2.getNativeResource).attributes))) := by
  refine ⟨fun a => ?_, ?_, ?_, fun d => ?_, fun w1 w2 => ?_⟩
  · cases hr : F.resourceFromAttributes a <;>
      simp [createResourceE, Except.map, hr, bind, Except.bind, pure, Except.pure]
  · cases hr : F.defaultResource () <;>
      simp [getDefaultResourceE, Except.map, hr, bind, Except.bind, pure, Except.pure]
  · cases hr : F.emptyResource () <;>
      simp [getEmptyResourceE, Except.map, hr, bind, Except.bind, pure, Except.pure]
  · rw [createResourceFromDetectorE]
    rw [detector_attributes_eq d]
    cases hr : F.resourceFromAttributes (specDetectorAttributesAmended d) <;>
      simp [Except.map, hr, bind, Except.bind, pure, Except.pure]
  · simp only [ResourceWrapper.attributes, ResourceWrapper.getNativeResource]
    cases hr : F.resourceFromAttributes
        (spread w1._resource.attributes w2._resource.attributes) <;>
      simp [mergeE, ResourceWrapper.getNativeResource,
        Except.map, hr, bind, Except.bind, pure, Except.pure]

/-- C10: every operation is a pure function of its inputs and the
extensional behaviour of the external factories — two runs against
factories with the same behaviour give equal results, with no hidden or
global state to diverge on. -/
theorem adapter_deterministic (F1 F2 : OtelFactories)
    (hr : ∀ a, F1.resourceFromAttributes a = F2.resourceFromAttributes a)
    (hd : F1.defaultResource () = F2.defaultResource ())
    (he : F1.emptyResource () = F2.emptyResource ()) :
    (∀ a, createResource F1 a = createResource F2 a) ∧
    getDefaultResource F1 = getDefaultResource F2 ∧
    getEmptyResource F1 = getEmptyResource F2 ∧
    (∀ d, createResourceFromDetector F1 d = createResourceFromDetector F2 d) ∧
    (∀ w1 w2, ResourceWrapper.merge F1 w1 w2 = ResourceWrapper.merge F2 w1 w2) := by
  refine ⟨fun a => ?_, ?_, ?_, fun d => ?_, fun w1 w2 => ?_⟩ <;>
    simp [createResource, getDefaultResource, getEmptyResource,
      createResourceFromDetector, ResourceWrapper.merge, hr, hd, he]

/-- Witness for C10: two syntactically distinct but extensionally equal
factory records produce the same resource. -/
theorem adapter_deterministic_witness :
    createResource (otelFactories (JSVal.vobj [])) (JSVal.vobj [("a", JSVal.vnum 1)])
      = createResource
          { resourceFromAttributes := fun a => ⟨a⟩
            defaultResource := fun _ => ⟨JSVal.vobj []⟩
            emptyResource := fun _ => ⟨JSVal.vobj []⟩ }
          (JSVal.vobj [("a", JSVal.vnum 1)]) :=
  (adapter_deterministic (otelFactories (JSVal.vobj []))
    { resourceFromAttributes := fun a => ⟨a⟩
      defaultResource := fun _ => ⟨JSVal.vobj []⟩
      emptyResource := fun _ => ⟨JSVal.vobj []⟩ }
    (fun _ => rfl) rfl rfl).1 (JSVal.vobj [("a", JSVal.vnum 1)])

end OtelCompat
